import Mathlib

/-!
Verification of the NPK stress computation of `pcse/crop/nutrients/npk_stress.py`
(class `NPK_Stress`).  Real-valued quantities are embedded as rationals; the
interpolation tables (AfgenTrait, an external collaborator evaluated only at
the current developmental stage) are embedded as functions from stage to
concentration.
-/

namespace PCSE

/-- Modelled from the spec: the clamp utility `limit` of `pcse.util` (not under
`src/`) clamps a value to the interval from `vmin` to `vmax`. -/
def limit (vmin vmax v : ℚ) : ℚ := max vmin (min vmax v)

/-- The coefficient set of `NPK_Stress.Parameters`: three interpolation tables
(maximum leaf concentration as a function of developmental stage) and the
scalar coefficients, named as in the source. -/
structure Parameters where
  NMAXLV_TB : ℚ → ℚ
  PMAXLV_TB : ℚ → ℚ
  KMAXLV_TB : ℚ → ℚ
  NCRIT_FR : ℚ
  PCRIT_FR : ℚ
  KCRIT_FR : ℚ
  NMAXRT_FR : ℚ
  NMAXST_FR : ℚ
  PMAXST_FR : ℚ
  PMAXRT_FR : ℚ
  KMAXRT_FR : ℚ
  KMAXST_FR : ℚ
  NRESIDLV : ℚ
  NRESIDST : ℚ
  PRESIDLV : ℚ
  PRESIDST : ℚ
  KRESIDLV : ℚ
  KRESIDST : ℚ
  NLUE_NPK : ℚ

/-- The state snapshot read from the kiosk by `NPK_Stress.__call__`:
developmental stage, living leaf and stem dry masses, and the six accumulated
nutrient masses. -/
structure Snapshot where
  DVS : ℚ
  WLV : ℚ
  WST : ℚ
  ANLV : ℚ
  ANST : ℚ
  APLV : ℚ
  APST : ℚ
  AKLV : ℚ
  AKST : ℚ

/-- `NMAXLV = params.NMAXLV_TB(DVS)`. -/
def NMAXLV (p : Parameters) (s : Snapshot) : ℚ := p.NMAXLV_TB s.DVS

/-- `PMAXLV = params.PMAXLV_TB(DVS)`. -/
def PMAXLV (p : Parameters) (s : Snapshot) : ℚ := p.PMAXLV_TB s.DVS

/-- `KMAXLV = params.KMAXLV_TB(DVS)`. -/
def KMAXLV (p : Parameters) (s : Snapshot) : ℚ := p.KMAXLV_TB s.DVS

/-- `NMAXST = params.NMAXST_FR * NMAXLV`. -/
def NMAXST (p : Parameters) (s : Snapshot) : ℚ := p.NMAXST_FR * NMAXLV p s

/-- `PMAXST = params.PMAXRT_FR * PMAXLV` (the source multiplies the leaf
maximum by the coefficient named as a root ratio). -/
def PMAXST (p : Parameters) (s : Snapshot) : ℚ := p.PMAXRT_FR * PMAXLV p s

/-- `KMAXST = params.KMAXST_FR * KMAXLV`. -/
def KMAXST (p : Parameters) (s : Snapshot) : ℚ := p.KMAXST_FR * KMAXLV p s

/-- `TBGMR = WLV + WST`: total vegetative living above-ground biomass. -/
def TBGMR (s : Snapshot) : ℚ := s.WLV + s.WST

/-- `NOPTLV = params.NCRIT_FR * NMAXLV * WLV`. -/
def NOPTLV (p : Parameters) (s : Snapshot) : ℚ := p.NCRIT_FR * NMAXLV p s * s.WLV

/-- `NOPTST = params.NCRIT_FR * NMAXST * WST`. -/
def NOPTST (p : Parameters) (s : Snapshot) : ℚ := p.NCRIT_FR * NMAXST p s * s.WST

/-- `POPTLV = params.PCRIT_FR * PMAXLV * WLV`. -/
def POPTLV (p : Parameters) (s : Snapshot) : ℚ := p.PCRIT_FR * PMAXLV p s * s.WLV

/-- `POPTST = params.PCRIT_FR * PMAXST * WST`. -/
def POPTST (p : Parameters) (s : Snapshot) : ℚ := p.PCRIT_FR * PMAXST p s * s.WST

/-- `KOPTLV = params.KCRIT_FR * KMAXLV * WLV`. -/
def KOPTLV (p : Parameters) (s : Snapshot) : ℚ := p.KCRIT_FR * KMAXLV p s * s.WLV

/-- `KOPTST = params.KCRIT_FR * KMAXST * WST`. -/
def KOPTST (p : Parameters) (s : Snapshot) : ℚ := p.KCRIT_FR * KMAXST p s * s.WST

/-- Optimal whole-plant N concentration: `(NOPTLV + NOPTST)/TBGMR` when
`TBGMR > 0`, else `0`. -/
def NOPTMR (p : Parameters) (s : Snapshot) : ℚ :=
  if TBGMR s > 0 then (NOPTLV p s + NOPTST p s) / TBGMR s else 0

/-- Optimal whole-plant P concentration: `(POPTLV + POPTST)/TBGMR` when
`TBGMR > 0`, else `0`. -/
def POPTMR (p : Parameters) (s : Snapshot) : ℚ :=
  if TBGMR s > 0 then (POPTLV p s + POPTST p s) / TBGMR s else 0

/-- Optimal whole-plant K concentration: `(KOPTLV + KOPTST)/TBGMR` when
`TBGMR > 0`, else `0`. -/
def KOPTMR (p : Parameters) (s : Snapshot) : ℚ :=
  if TBGMR s > 0 then (KOPTLV p s + KOPTST p s) / TBGMR s else 0

/-- Actual whole-plant N concentration: `(ANLV + ANST)/TBGMR` when
`TBGMR > 0`, else `0`. -/
def NFGMR (s : Snapshot) : ℚ :=
  if TBGMR s > 0 then (s.ANLV + s.ANST) / TBGMR s else 0

/-- Actual whole-plant P concentration: `(APLV + APST)/TBGMR` when
`TBGMR > 0`, else `0`. -/
def PFGMR (s : Snapshot) : ℚ :=
  if TBGMR s > 0 then (s.APLV + s.APST) / TBGMR s else 0

/-- Actual whole-plant K concentration: `(AKLV + AKST)/TBGMR` when
`TBGMR > 0`, else `0`. -/
def KFGMR (s : Snapshot) : ℚ :=
  if TBGMR s > 0 then (s.AKLV + s.AKST) / TBGMR s else 0

/-- Residual whole-plant N concentration:
`(WLV*NRESIDLV + WST*NRESIDST)/TBGMR` when `TBGMR > 0`, else `0`. -/
def NRMR (p : Parameters) (s : Snapshot) : ℚ :=
  if TBGMR s > 0 then (s.WLV * p.NRESIDLV + s.WST * p.NRESIDST) / TBGMR s else 0

/-- Residual whole-plant P concentration:
`(WLV*PRESIDLV + WST*PRESIDST)/TBGMR` when `TBGMR > 0`, else `0`. -/
def PRMR (p : Parameters) (s : Snapshot) : ℚ :=
  if TBGMR s > 0 then (s.WLV * p.PRESIDLV + s.WST * p.PRESIDST) / TBGMR s else 0

/-- Residual whole-plant K concentration:
`(WLV*KRESIDLV + WST*KRESIDST)/TBGMR` when `TBGMR > 0`, else `0`. -/
def KRMR (p : Parameters) (s : Snapshot) : ℚ :=
  if TBGMR s > 0 then (s.WLV * p.KRESIDLV + s.WST * p.KRESIDST) / TBGMR s else 0

/-- `NNI = max(0.001, (NFGMR-NRMR)/(NOPTMR-NRMR))` when `NOPTMR - NRMR > 0`,
else `0.001`. -/
def NNI (p : Parameters) (s : Snapshot) : ℚ :=
  if NOPTMR p s - NRMR p s > 0 then
    max (1/1000) ((NFGMR s - NRMR p s) / (NOPTMR p s - NRMR p s))
  else 1/1000

/-- `PNI = max(0.001, (PFGMR-PRMR)/(POPTMR-PRMR))` when `POPTMR - PRMR > 0`,
else `0.001`. -/
def PNI (p : Parameters) (s : Snapshot) : ℚ :=
  if POPTMR p s - PRMR p s > 0 then
    max (1/1000) ((PFGMR s - PRMR p s) / (POPTMR p s - PRMR p s))
  else 1/1000

/-- `KNI = max(0.001, (KFGMR-KRMR)/(KOPTMR-KRMR))` when `KOPTMR - KRMR > 0`,
else `0.001`. -/
def KNI (p : Parameters) (s : Snapshot) : ℚ :=
  if KOPTMR p s - KRMR p s > 0 then
    max (1/1000) ((KFGMR s - KRMR p s) / (KOPTMR p s - KRMR p s))
  else 1/1000

/-- `NPKI = min(NNI, PNI, KNI)`. -/
def NPKI (p : Parameters) (s : Snapshot) : ℚ :=
  min (NNI p s) (min (PNI p s) (KNI p s))

/-- The nutrient reduction curve applied to the combined index:
`limit(0., 1.0, 1. - NLUE_NPK * (1.0001 - NPKI)**2)`. -/
def reductionCurve (nlue npki : ℚ) : ℚ :=
  limit 0 1 (1 - nlue * (10001/10000 - npki)^2)

/-- `NPKREF = limit(0., 1.0, 1. - (params.NLUE_NPK * (1.0001-NPKI)**2))`. -/
def NPKREF (p : Parameters) (s : Snapshot) : ℚ :=
  reductionCurve p.NLUE_NPK (NPKI p s)

/-- The return value of `NPK_Stress.__call__`: the triple
`(NNI, NPKI, NPKREF)`. -/
def call (p : Parameters) (s : Snapshot) : ℚ × ℚ × ℚ :=
  (NNI p s, NPKI p s, NPKREF p s)

/-- The names of the state variables `__call__` reads from the kiosk. -/
inductive VarName where
  | DVS | WLV | WST | ANLV | ANST | APLV | APST | AKLV | AKST
deriving DecidableEq

/-- Modelled from the spec: the `VariableKiosk` (not under `src/`) is a
read-only store; `fetch(name)` either yields the published numeric value or
fails with `MissingVariable`.  It is embedded as a partial map. -/
def Kiosk : Type := VarName → Option ℚ

/-- `NPK_Stress.__call__` as invoked against the kiosk: each of the nine state
variables is fetched (in source order `WLV, WST, DVS, ANLV, ANST, APLV, APST,
AKLV, AKST`); if any fetch fails the call fails with no result, otherwise the
triple is computed from the snapshot of fetched values. -/
def callK (p : Parameters) (k : Kiosk) : Option (ℚ × ℚ × ℚ) :=
  match k .WLV, k .WST, k .DVS, k .ANLV, k .ANST, k .APLV, k .APST, k .AKLV, k .AKST with
  | some wlv, some wst, some dvs, some anlv, some anst, some aplv, some apst,
      some aklv, some akst =>
      some (call p ⟨dvs, wlv, wst, anlv, anst, aplv, apst, aklv, akst⟩)
  | _, _, _, _, _, _, _, _, _ => none

/-- An all-zero coefficient set, used as a concrete evaluation point. -/
def pZero : Parameters :=
  ⟨fun _ => 0, fun _ => 0, fun _ => 0, 0, 0, 0, 0, 0, 0, 0, 0, 0, 0, 0, 0, 0, 0, 0, 0⟩

/-- An all-zero snapshot, used as a concrete evaluation point. -/
def sZero : Snapshot := ⟨0, 0, 0, 0, 0, 0, 0, 0, 0⟩

/-- The worked numeric example of the spec (stage 1, leaf mass 3000, stem mass
2000, leaf/stem N mass 90/40, max leaf N 0.04, stem ratio 0.5, critical
fraction 0.8, residual fractions 0.02/0.015), extended symmetrically to P
and K. -/
def pEx : Parameters :=
  ⟨fun _ => 4/100, fun _ => 4/100, fun _ => 4/100, 8/10, 8/10, 8/10,
   1/2, 1/2, 1/2, 1/2, 1/2, 1/2,
   2/100, 15/1000, 2/100, 15/1000, 2/100, 15/1000, 1⟩

/-- The snapshot of the worked numeric example of the spec. -/
def sEx : Snapshot := ⟨1, 3000, 2000, 90, 40, 90, 40, 90, 40⟩

/-- C1: each single-nutrient index is at least 0.001; when the optimal minus
residual concentration is nonpositive the index equals 0.001 exactly, and
when it is positive the index equals
`max(0.001, (actual - residual)/(optimal - residual))`. -/
theorem C1_index_floor_and_formula (p : Parameters) (s : Snapshot) :
    (1/1000 ≤ NNI p s ∧ 1/1000 ≤ PNI p s ∧ 1/1000 ≤ KNI p s)
    ∧ (NOPTMR p s - NRMR p s ≤ 0 → NNI p s = 1/1000)
    ∧ (0 < NOPTMR p s - NRMR p s →
        NNI p s = max (1/1000) ((NFGMR s - NRMR p s) / (NOPTMR p s - NRMR p s)))
    ∧ (POPTMR p s - PRMR p s ≤ 0 → PNI p s = 1/1000)
    ∧ (0 < POPTMR p s - PRMR p s →
        PNI p s = max (1/1000) ((PFGMR s - PRMR p s) / (POPTMR p s - PRMR p s)))
    ∧ (KOPTMR p s - KRMR p s ≤ 0 → KNI p s = 1/1000)
    ∧ (0 < KOPTMR p s - KRMR p s →
        KNI p s = max (1/1000) ((KFGMR s - KRMR p s) / (KOPTMR p s - KRMR p s))) := by
  refine ⟨⟨?_, ?_, ?_⟩, fun h => ?_, fun h => ?_, fun h => ?_, fun h => ?_,
    fun h => ?_, fun h => ?_⟩
  · unfold NNI; split
    · exact le_max_left _ _
    · exact le_rfl
  · unfold PNI; split
    · exact le_max_left _ _
    · exact le_rfl
  · unfold KNI; split
    · exact le_max_left _ _
    · exact le_rfl
  · exact if_neg (not_lt.mpr h)
  · exact if_pos h
  · exact if_neg (not_lt.mpr h)
  · exact if_pos h
  · exact if_neg (not_lt.mpr h)
  · exact if_pos h

/-- Witness for C1: at the all-zero input the optimal minus residual range is
nonpositive and the N index is exactly 0.001; at the spec example the range is
positive and the N index follows the max formula. -/
theorem C1_index_floor_and_formula_witness :
    NNI pZero sZero = 1/1000
    ∧ NNI pEx sEx = max (1/1000) ((NFGMR sEx - NRMR pEx sEx) / (NOPTMR pEx sEx - NRMR pEx sEx))
    ∧ 1/1000 ≤ NNI pEx sEx := by
  refine ⟨(C1_index_floor_and_formula pZero sZero).2.1 ?_,
    (C1_index_floor_and_formula pEx sEx).2.2.1 ?_,
    (C1_index_floor_and_formula pEx sEx).1.1⟩
  · norm_num [NOPTMR, NRMR, TBGMR, NOPTLV, NOPTST, NMAXLV, NMAXST, pZero, sZero]
  · norm_num [NOPTMR, NRMR, TBGMR, NOPTLV, NOPTST, NMAXLV, NMAXST, pEx, sEx]

/-- C2: the combined index returned by `__call__` is exactly the minimum of
the three single-nutrient indices; hence it is bounded by each of them and
coincides with one of them. -/
theorem C2_npki_is_min (p : Parameters) (s : Snapshot) :
    (call p s).2.1 = min (NNI p s) (min (PNI p s) (KNI p s))
    ∧ NPKI p s ≤ NNI p s ∧ NPKI p s ≤ PNI p s ∧ NPKI p s ≤ KNI p s
    ∧ (NPKI p s = NNI p s ∨ NPKI p s = PNI p s ∨ NPKI p s = KNI p s) := by
  refine ⟨rfl, min_le_left _ _, le_trans (min_le_right _ _) (min_le_left _ _),
    le_trans (min_le_right _ _) (min_le_right _ _), ?_⟩
  unfold NPKI
  rcases le_total (NNI p s) (min (PNI p s) (KNI p s)) with h | h
  · exact Or.inl (min_eq_left h)
  · rw [min_eq_right h]
    rcases le_total (PNI p s) (KNI p s) with h2 | h2
    · exact Or.inr (Or.inl (min_eq_left h2))
    · exact Or.inr (Or.inr (min_eq_right h2))

/-- C3: the reduction factor returned by `__call__` is the clamp to the unit
interval of `1 - NLUE_NPK * (1.0001 - NPKI)^2`, and it always lies in
`[0, 1]`. -/
theorem C3_npkref_clamped (p : Parameters) (s : Snapshot) :
    (call p s).2.2 = limit 0 1 (1 - p.NLUE_NPK * (10001/10000 - NPKI p s)^2)
    ∧ 0 ≤ NPKREF p s ∧ NPKREF p s ≤ 1 := by
  refine ⟨rfl, le_max_left _ _, ?_⟩
  unfold NPKREF reductionCurve limit
  exact max_le (by norm_num) (min_le_left _ _)

/-- C5: each maximum stem concentration is the corresponding ratio coefficient
times the interpolated maximum leaf concentration; for P the coefficient used
is `PMAXRT_FR` (named as a root ratio), mirroring `NMAXST_FR * NMAXLV` and
`KMAXST_FR * KMAXLV`. -/
theorem C5_stem_maxima_from_leaf_maxima (p : Parameters) (s : Snapshot) :
    NMAXST p s = p.NMAXST_FR * p.NMAXLV_TB s.DVS
    ∧ PMAXST p s = p.PMAXRT_FR * p.PMAXLV_TB s.DVS
    ∧ KMAXST p s = p.KMAXST_FR * p.KMAXLV_TB s.DVS :=
  ⟨rfl, rfl, rfl⟩

/-- C4: with zero living leaf and stem mass, all optimal, actual and residual
whole-plant concentrations are 0, all three indices and the combined index
equal 0.001 exactly, and the reduction factor is the clamped curve evaluated
at 0.001. -/
theorem C4_zero_biomass_defaults (p : Parameters) (s : Snapshot)
    (hlv : s.WLV = 0) (hst : s.WST = 0) :
    (NOPTMR p s = 0 ∧ POPTMR p s = 0 ∧ KOPTMR p s = 0)
    ∧ (NFGMR s = 0 ∧ PFGMR s = 0 ∧ KFGMR s = 0)
    ∧ (NRMR p s = 0 ∧ PRMR p s = 0 ∧ KRMR p s = 0)
    ∧ (NNI p s = 1/1000 ∧ PNI p s = 1/1000 ∧ KNI p s = 1/1000)
    ∧ NPKI p s = 1/1000
    ∧ NPKREF p s = limit 0 1 (1 - p.NLUE_NPK * (10001/10000 - 1/1000)^2) := by
  have hT : TBGMR s = 0 := by simp [TBGMR, hlv, hst]
  have hT' : ¬ TBGMR s > 0 := by rw [hT]; exact lt_irrefl 0
  have h1 : NOPTMR p s = 0 := by simp [NOPTMR, hT']
  have h2 : POPTMR p s = 0 := by simp [POPTMR, hT']
  have h3 : KOPTMR p s = 0 := by simp [KOPTMR, hT']
  have h4 : NFGMR s = 0 := by simp [NFGMR, hT']
  have h5 : PFGMR s = 0 := by simp [PFGMR, hT']
  have h6 : KFGMR s = 0 := by simp [KFGMR, hT']
  have h7 : NRMR p s = 0 := by simp [NRMR, hT']
  have h8 : PRMR p s = 0 := by simp [PRMR, hT']
  have h9 : KRMR p s = 0 := by simp [KRMR, hT']
  have hN : NNI p s = 1/1000 := by simp [NNI, h1, h4, h7]
  have hP : PNI p s = 1/1000 := by simp [PNI, h2, h5, h8]
  have hK : KNI p s = 1/1000 := by simp [KNI, h3, h6, h9]
  have hI : NPKI p s = 1/1000 := by simp [NPKI, hN, hP, hK]
  refine ⟨⟨h1, h2, h3⟩, ⟨h4, h5, h6⟩, ⟨h7, h8, h9⟩, ⟨hN, hP, hK⟩, hI, ?_⟩
  rw [NPKREF, reductionCurve, hI]

/-- A snapshot with zero biomass but nonzero accumulated nutrient masses. -/
def sBare : Snapshot := ⟨1, 0, 0, 5, 4, 3, 2, 1, 6⟩

/-- Witness for C4: at a concrete zero-biomass snapshot with nonzero nutrient
masses and the example coefficients, the combined index is 0.001 and the
reduction factor follows the clamped curve at 0.001. -/
theorem C4_zero_biomass_defaults_witness :
    NFGMR sBare = 0 ∧ NPKI pEx sBare = 1/1000
    ∧ NPKREF pEx sBare = limit 0 1 (1 - Parameters.NLUE_NPK pEx * (10001/10000 - 1/1000)^2) := by
  refine ⟨(C4_zero_biomass_defaults pEx sBare rfl rfl).2.1.1,
    (C4_zero_biomass_defaults pEx sBare rfl rfl).2.2.2.2.1,
    (C4_zero_biomass_defaults pEx sBare rfl rfl).2.2.2.2.2⟩

/-- C6: with the residual and optimal concentrations fixed and the range
`optimal - residual` positive, each single-nutrient index is monotone
non-decreasing in the actual whole-plant concentration. -/
theorem C6_index_monotone_in_actual (p : Parameters) (s1 s2 : Snapshot)
    (hNo : NOPTMR p s1 = NOPTMR p s2) (hNr : NRMR p s1 = NRMR p s2)
    (hNp : 0 < NOPTMR p s2 - NRMR p s2) (hNa : NFGMR s1 ≤ NFGMR s2)
    (hPo : POPTMR p s1 = POPTMR p s2) (hPr : PRMR p s1 = PRMR p s2)
    (hPp : 0 < POPTMR p s2 - PRMR p s2) (hPa : PFGMR s1 ≤ PFGMR s2)
    (hKo : KOPTMR p s1 = KOPTMR p s2) (hKr : KRMR p s1 = KRMR p s2)
    (hKp : 0 < KOPTMR p s2 - KRMR p s2) (hKa : KFGMR s1 ≤ KFGMR s2) :
    NNI p s1 ≤ NNI p s2 ∧ PNI p s1 ≤ PNI p s2 ∧ KNI p s1 ≤ KNI p s2 := by
  refine ⟨?_, ?_, ?_⟩
  · unfold NNI
    rw [hNo, hNr, if_pos hNp, if_pos hNp]
    exact max_le_max le_rfl
      ((div_le_div_iff_of_pos_right hNp).mpr (sub_le_sub_right hNa _))
  · unfold PNI
    rw [hPo, hPr, if_pos hPp, if_pos hPp]
    exact max_le_max le_rfl
      ((div_le_div_iff_of_pos_right hPp).mpr (sub_le_sub_right hPa _))
  · unfold KNI
    rw [hKo, hKr, if_pos hKp, if_pos hKp]
    exact max_le_max le_rfl
      ((div_le_div_iff_of_pos_right hKp).mpr (sub_le_sub_right hKa _))

/-- The spec example snapshot with each leaf nutrient mass raised by 10. -/
def sExUp : Snapshot := ⟨1, 3000, 2000, 100, 40, 100, 40, 100, 40⟩

/-- Witness for C6: raising each accumulated leaf nutrient mass of the spec
example from 90 to 100 never decreases the indices. -/
theorem C6_index_monotone_in_actual_witness :
    NNI pEx sEx ≤ NNI pEx sExUp ∧ PNI pEx sEx ≤ PNI pEx sExUp
    ∧ KNI pEx sEx ≤ KNI pEx sExUp := by
  refine C6_index_monotone_in_actual pEx sEx sExUp ?_ ?_ ?_ ?_ ?_ ?_ ?_ ?_ ?_ ?_ ?_ ?_
  · norm_num [NOPTMR, NOPTLV, NOPTST, NMAXLV, NMAXST, TBGMR, pEx, sEx, sExUp]
  · norm_num [NRMR, TBGMR, pEx, sEx, sExUp]
  · norm_num [NOPTMR, NRMR, NOPTLV, NOPTST, NMAXLV, NMAXST, TBGMR, pEx, sExUp]
  · norm_num [NFGMR, TBGMR, sEx, sExUp]
  · norm_num [POPTMR, POPTLV, POPTST, PMAXLV, PMAXST, TBGMR, pEx, sEx, sExUp]
  · norm_num [PRMR, TBGMR, pEx, sEx, sExUp]
  · norm_num [POPTMR, PRMR, POPTLV, POPTST, PMAXLV, PMAXST, TBGMR, pEx, sExUp]
  · norm_num [PFGMR, TBGMR, sEx, sExUp]
  · norm_num [KOPTMR, KOPTLV, KOPTST, KMAXLV, KMAXST, TBGMR, pEx, sEx, sExUp]
  · norm_num [KRMR, TBGMR, pEx, sEx, sExUp]
  · norm_num [KOPTMR, KRMR, KOPTLV, KOPTST, KMAXLV, KMAXST, TBGMR, pEx, sExUp]
  · norm_num [KFGMR, TBGMR, sEx, sExUp]

/-- Counterexample to C7 as stated: with sensitivity 1 the curve is not
monotone over the whole attainable range of the combined index.  Both 1 and 3
are at least 0.001 and 1 ≤ 3, yet the penalty term is larger at 3 than at 1
and the reduction factor drops from almost 1 to 0. -/
theorem C7_counterexample :
    0 < (1 : ℚ)
    ∧ (1/1000 : ℚ) ≤ 1 ∧ (1/1000 : ℚ) ≤ 3 ∧ (1 : ℚ) ≤ 3
    ∧ (1 : ℚ) * (10001/10000 - 1)^2 < 1 * (10001/10000 - 3)^2
    ∧ reductionCurve 1 3 < reductionCurve 1 1 := by
  norm_num [reductionCurve, limit]

/-- C7 amended: for a positive sensitivity coefficient the curve is monotone
non-decreasing (and the penalty term non-increasing) in the combined index on
the part of the attainable range not exceeding the offset 1.0001; beyond the
offset the penalty grows again. -/
theorem C7_amended_monotone_below_offset (nlue x1 x2 : ℚ)
    (hn : 0 < nlue) (_hx1 : 1/1000 ≤ x1) (h12 : x1 ≤ x2) (h2 : x2 ≤ 10001/10000) :
    nlue * (10001/10000 - x2)^2 ≤ nlue * (10001/10000 - x1)^2
    ∧ reductionCurve nlue x1 ≤ reductionCurve nlue x2 := by
  have hpen : nlue * (10001/10000 - x2)^2 ≤ nlue * (10001/10000 - x1)^2 := by
    refine mul_le_mul_of_nonneg_left ?_ (le_of_lt hn)
    exact pow_le_pow_left₀ (by linarith) (by linarith) 2
  refine ⟨hpen, ?_⟩
  unfold reductionCurve limit
  exact max_le_max le_rfl (min_le_min le_rfl (by linarith))

/-- Witness for C7 amended: with sensitivity 2, moving the index from 1/2 up
to 1 lowers the penalty and raises the reduction factor. -/
theorem C7_amended_monotone_below_offset_witness :
    (2 : ℚ) * (10001/10000 - 1)^2 ≤ 2 * (10001/10000 - 1/2)^2
    ∧ reductionCurve 2 (1/2) ≤ reductionCurve 2 1 :=
  C7_amended_monotone_below_offset 2 (1/2) 1 (by norm_num) (by norm_num)
    (by norm_num) (by norm_num)

/-- C8: the call is deterministic and reads only the nine published state
variables: two kiosks agreeing on those nine values yield identical result
triples under the same coefficient set. -/
theorem C8_deterministic_pure (p : Parameters) (k1 k2 : Kiosk)
    (hDVS : k1 .DVS = k2 .DVS) (hWLV : k1 .WLV = k2 .WLV) (hWST : k1 .WST = k2 .WST)
    (hANLV : k1 .ANLV = k2 .ANLV) (hANST : k1 .ANST = k2 .ANST)
    (hAPLV : k1 .APLV = k2 .APLV) (hAPST : k1 .APST = k2 .APST)
    (hAKLV : k1 .AKLV = k2 .AKLV) (hAKST : k1 .AKST = k2 .AKST) :
    callK p k1 = callK p k2 := by
  unfold callK
  rw [hDVS, hWLV, hWST, hANLV, hANST, hAPLV, hAPST, hAKLV, hAKST]

/-- A fully populated kiosk used as a concrete evaluation point. -/
def kOne : Kiosk := fun _ => some 1

/-- A second, separately defined kiosk holding the same nine values. -/
def kOne' : Kiosk := fun v =>
  match v with
  | .DVS => some 1 | .WLV => some 1 | .WST => some 1
  | .ANLV => some 1 | .ANST => some 1
  | .APLV => some 1 | .APST => some 1
  | .AKLV => some 1 | .AKST => some 1

/-- Witness for C8: two distinct kiosk implementations with the same
published values give the same result. -/
theorem C8_deterministic_pure_witness : callK pEx kOne = callK pEx kOne' :=
  C8_deterministic_pure pEx kOne kOne' rfl rfl rfl rfl rfl rfl rfl rfl rfl

/-- C9: if any of the required state variables is missing from the kiosk, the
call fails with no result at all. -/
theorem C9_missing_variable_aborts (p : Parameters) (k : Kiosk)
    (h : k .DVS = none ∨ k .WLV = none ∨ k .WST = none
      ∨ k .ANLV = none ∨ k .ANST = none ∨ k .APLV = none
      ∨ k .APST = none ∨ k .AKLV = none ∨ k .AKST = none) :
    callK p k = none := by
  unfold callK
  split
  · rcases h with h | h | h | h | h | h | h | h | h <;> simp_all
  · rfl

/-- A kiosk publishing every variable except the developmental stage. -/
def kNoDVS : Kiosk := fun v =>
  match v with
  | .DVS => none
  | _ => some 1

/-- Witness for C9: with DVS unpublished the call returns no result. -/
theorem C9_missing_variable_aborts_witness : callK pEx kNoDVS = none :=
  C9_missing_variable_aborts pEx kNoDVS (Or.inl rfl)

/-- Division that fails on a zero divisor instead of producing a junk value. -/
def safeDiv (a b : ℚ) : Option ℚ := if b = 0 then none else some (a / b)

theorem safeDiv_pos (a b : ℚ) (h : 0 < b) : safeDiv a b = some (a / b) :=
  if_neg (ne_of_gt h)

/-- `NOPTMR` with its division checked. -/
def NOPTMR_chk (p : Parameters) (s : Snapshot) : Option ℚ :=
  if TBGMR s > 0 then safeDiv (NOPTLV p s + NOPTST p s) (TBGMR s) else some 0

/-- `POPTMR` with its division checked. -/
def POPTMR_chk (p : Parameters) (s : Snapshot) : Option ℚ :=
  if TBGMR s > 0 then safeDiv (POPTLV p s + POPTST p s) (TBGMR s) else some 0

/-- `KOPTMR` with its division checked. -/
def KOPTMR_chk (p : Parameters) (s : Snapshot) : Option ℚ :=
  if TBGMR s > 0 then safeDiv (KOPTLV p s + KOPTST p s) (TBGMR s) else some 0

/-- `NFGMR` with its division checked. -/
def NFGMR_chk (s : Snapshot) : Option ℚ :=
  if TBGMR s > 0 then safeDiv (s.ANLV + s.ANST) (TBGMR s) else some 0

/-- `PFGMR` with its division checked. -/
def PFGMR_chk (s : Snapshot) : Option ℚ :=
  if TBGMR s > 0 then safeDiv (s.APLV + s.APST) (TBGMR s) else some 0

/-- `KFGMR` with its division checked. -/
def KFGMR_chk (s : Snapshot) : Option ℚ :=
  if TBGMR s > 0 then safeDiv (s.AKLV + s.AKST) (TBGMR s) else some 0

/-- `NRMR` with its division checked. -/
def NRMR_chk (p : Parameters) (s : Snapshot) : Option ℚ :=
  if TBGMR s > 0 then safeDiv (s.WLV * p.NRESIDLV + s.WST * p.NRESIDST) (TBGMR s)
  else some 0

/-- `PRMR` with its division checked. -/
def PRMR_chk (p : Parameters) (s : Snapshot) : Option ℚ :=
  if TBGMR s > 0 then safeDiv (s.WLV * p.PRESIDLV + s.WST * p.PRESIDST) (TBGMR s)
  else some 0

/-- `KRMR` with its division checked. -/
def KRMR_chk (p : Parameters) (s : Snapshot) : Option ℚ :=
  if TBGMR s > 0 then safeDiv (s.WLV * p.KRESIDLV + s.WST * p.KRESIDST) (TBGMR s)
  else some 0

/-- `NNI` with every division checked. -/
def NNI_chk (p : Parameters) (s : Snapshot) : Option ℚ :=
  (NOPTMR_chk p s).bind fun nopt =>
  (NFGMR_chk s).bind fun nf =>
  (NRMR_chk p s).bind fun nr =>
  if nopt - nr > 0 then (safeDiv (nf - nr) (nopt - nr)).map (fun r => max (1/1000) r)
  else some (1/1000)

/-- `PNI` with every division checked. -/
def PNI_chk (p : Parameters) (s : Snapshot) : Option ℚ :=
  (POPTMR_chk p s).bind fun popt =>
  (PFGMR_chk s).bind fun pf =>
  (PRMR_chk p s).bind fun pr =>
  if popt - pr > 0 then (safeDiv (pf - pr) (popt - pr)).map (fun r => max (1/1000) r)
  else some (1/1000)

/-- `KNI` with every division checked. -/
def KNI_chk (p : Parameters) (s : Snapshot) : Option ℚ :=
  (KOPTMR_chk p s).bind fun kopt =>
  (KFGMR_chk s).bind fun kf =>
  (KRMR_chk p s).bind fun kr =>
  if kopt - kr > 0 then (safeDiv (kf - kr) (kopt - kr)).map (fun r => max (1/1000) r)
  else some (1/1000)

/-- `__call__` with every division checked: it fails if and only if some
division in the body would divide by zero. -/
def callChecked (p : Parameters) (s : Snapshot) : Option (ℚ × ℚ × ℚ) :=
  (NNI_chk p s).bind fun nni =>
  (PNI_chk p s).bind fun pni =>
  (KNI_chk p s).bind fun kni =>
  some (nni, min nni (min pni kni),
    reductionCurve p.NLUE_NPK (min nni (min pni kni)))

theorem NOPTMR_chk_eq (p : Parameters) (s : Snapshot) :
    NOPTMR_chk p s = some (NOPTMR p s) := by
  unfold NOPTMR_chk NOPTMR
  split
  · exact safeDiv_pos _ _ (by assumption)
  · rfl

theorem POPTMR_chk_eq (p : Parameters) (s : Snapshot) :
    POPTMR_chk p s = some (POPTMR p s) := by
  unfold POPTMR_chk POPTMR
  split
  · exact safeDiv_pos _ _ (by assumption)
  · rfl

theorem KOPTMR_chk_eq (p : Parameters) (s : Snapshot) :
    KOPTMR_chk p s = some (KOPTMR p s) := by
  unfold KOPTMR_chk KOPTMR
  split
  · exact safeDiv_pos _ _ (by assumption)
  · rfl

theorem NFGMR_chk_eq (s : Snapshot) : NFGMR_chk s = some (NFGMR s) := by
  unfold NFGMR_chk NFGMR
  split
  · exact safeDiv_pos _ _ (by assumption)
  · rfl

theorem PFGMR_chk_eq (s : Snapshot) : PFGMR_chk s = some (PFGMR s) := by
  unfold PFGMR_chk PFGMR
  split
  · exact safeDiv_pos _ _ (by assumption)
  · rfl

theorem KFGMR_chk_eq (s : Snapshot) : KFGMR_chk s = some (KFGMR s) := by
  unfold KFGMR_chk KFGMR
  split
  · exact safeDiv_pos _ _ (by assumption)
  · rfl

theorem NRMR_chk_eq (p : Parameters) (s : Snapshot) :
    NRMR_chk p s = some (NRMR p s) := by
  unfold NRMR_chk NRMR
  split
  · exact safeDiv_pos _ _ (by assumption)
  · rfl

theorem PRMR_chk_eq (p : Parameters) (s : Snapshot) :
    PRMR_chk p s = some (PRMR p s) := by
  unfold PRMR_chk PRMR
  split
  · exact safeDiv_pos _ _ (by assumption)
  · rfl

theorem KRMR_chk_eq (p : Parameters) (s : Snapshot) :
    KRMR_chk p s = some (KRMR p s) := by
  unfold KRMR_chk KRMR
  split
  · exact safeDiv_pos _ _ (by assumption)
  · rfl

theorem NNI_chk_eq (p : Parameters) (s : Snapshot) : NNI_chk p s = some (NNI p s) := by
  unfold NNI_chk NNI
  rw [NOPTMR_chk_eq, NFGMR_chk_eq, NRMR_chk_eq]
  simp only [Option.some_bind']
  split
  · rw [safeDiv_pos _ _ (by assumption)]
    rfl
  · rfl

theorem PNI_chk_eq (p : Parameters) (s : Snapshot) : PNI_chk p s = some (PNI p s) := by
  unfold PNI_chk PNI
  rw [POPTMR_chk_eq, PFGMR_chk_eq, PRMR_chk_eq]
  simp only [Option.some_bind']
  split
  · rw [safeDiv_pos _ _ (by assumption)]
    rfl
  · rfl

theorem KNI_chk_eq (p : Parameters) (s : Snapshot) : KNI_chk p s = some (KNI p s) := by
  unfold KNI_chk KNI
  rw [KOPTMR_chk_eq, KFGMR_chk_eq, KRMR_chk_eq]
  simp only [Option.some_bind']
  split
  · rw [safeDiv_pos _ _ (by assumption)]
    rfl
  · rfl

/-- C10: every division in the body of `__call__` happens under a guard that
makes its divisor strictly positive; the fully checked variant of the call
never fails and agrees with the unchecked result on every snapshot. -/
theorem C10_no_division_by_zero (p : Parameters) (s : Snapshot) :
    callChecked p s = some (call p s) := by
  unfold callChecked
  rw [NNI_chk_eq, PNI_chk_eq, KNI_chk_eq]
  simp only [Option.some_bind']
  rfl

end PCSE
